import Mathlib

/-
Verification of the Transaction Core of the open-ocpp charge point library
(src/src/chargepoint/transaction/TransactionManager.cpp) against its
natural-language specification.

The C++ methods are shallowly embedded as pure Lean functions.  Collaborator
objects that live outside this file of the repository (reservation manager,
message sender, events handler, configuration, meter values manager, smart
charging manager, status manager) are modelled as environment records whose
fields give the answers those collaborators would return; every observable
call the TransactionManager makes to a collaborator is recorded as an
`Event` in an ordered trace.  The message sender's contract (spec section
4.2, dual-path write rule) is: when a send with an attached FIFO fails, the
serialized request is atomically appended to the FIFO; this is modelled
where the sender is invoked with the FIFO attached.
-/

set_option linter.unusedVariables false

namespace Ocpp

/-- OCPP 1.6 authorization status (ocpp::types::AuthorizationStatus). -/
inductive AuthorizationStatus
  | Accepted
  | Blocked
  | Expired
  | Invalid
  | ConcurrentTx
  deriving DecidableEq, Repr

/-- OCPP 1.6 charge point status (ocpp::types::ChargePointStatus). -/
inductive ChargePointStatus
  | Available
  | Preparing
  | Charging
  | SuspendedEV
  | SuspendedEVSE
  | Finishing
  | Reserved
  | Unavailable
  | Faulted
  deriving DecidableEq, Repr

/-- OCPP 1.6 stop reason (ocpp::types::Reason). -/
inductive Reason
  | DeAuthorized
  | EmergencyStop
  | EVDisconnected
  | HardReset
  | Local
  | Other
  | PowerLoss
  | Reboot
  | Remote
  | SoftReset
  | UnlockCommand
  deriving DecidableEq, Repr

/-- Registration status of the charge point (ocpp::types::RegistrationStatus). -/
inductive RegistrationStatus
  | Accepted
  | Pending
  | Rejected
  deriving DecidableEq, Repr

/-- Response status for remote start/stop (ocpp::types::RemoteStartStopStatus). -/
inductive RemoteStartStopStatus
  | Accepted
  | Rejected
  deriving DecidableEq, Repr

/-- Authorization information attached to an id tag (ocpp::types::IdTagInfo);
only the status field is relevant to the transaction core. -/
structure IdTagInfo where
  status : AuthorizationStatus
  deriving DecidableEq, Repr

/-- StartTransaction.req message (timestamps as abstract Nat instants). -/
structure StartTransactionReq where
  connectorId : Nat
  idTag : String
  meterStart : Int
  timestamp : Nat
  reservationId : Option Int
  deriving DecidableEq, Repr

/-- StartTransaction.conf message. -/
structure StartTransactionConf where
  transactionId : Int
  idTagInfo : IdTagInfo
  deriving DecidableEq, Repr

/-- StopTransaction.req message (transactionData as opaque sample list). -/
structure StopTransactionReq where
  transactionId : Int
  idTag : Option String
  meterStop : Int
  timestamp : Nat
  reason : Reason
  transactionData : List Int
  deriving DecidableEq, Repr

/-- StopTransaction.conf message. -/
structure StopTransactionConf where
  idTagInfo : Option IdTagInfo
  deriving DecidableEq, Repr

/-- Per-connector durable record (ocpp::chargepoint::Connector), restricted to
the fields the transaction core reads or writes. -/
structure Connector where
  id : Nat
  status : ChargePointStatus
  transaction_id : Int
  transaction_start : Nat
  transaction_id_tag : String
  reservation_id : Int
  deriving DecidableEq, Repr

instance : Inhabited Connector :=
  ⟨{ id := 0, status := ChargePointStatus.Available, transaction_id := 0,
     transaction_start := 0, transaction_id_tag := "", reservation_id := 0 }⟩

/-- Action string constant START_TRANSACTION_ACTION. -/
def START_TRANSACTION_ACTION : String := "StartTransaction"

/-- Action string constant STOP_TRANSACTION_ACTION. -/
def STOP_TRANSACTION_ACTION : String := "StopTransaction"

/-- Action string constant METER_VALUES_ACTION. -/
def METER_VALUES_ACTION : String := "MeterValues"

/-- Structured stand-in for the JSON payload stored in a FIFO entry. -/
inductive FifoPayload
  | startReq (req : StartTransactionReq)
  | stopReq (req : StopTransactionReq)
  | meter (payload : Nat)
  | other (payload : Nat)
  deriving DecidableEq, Repr

/-- One entry of the durable transaction FIFO: (action, payload). -/
structure FifoEntry where
  action : String
  payload : FifoPayload
  deriving DecidableEq, Repr

/-- Observable calls made by the TransactionManager to its collaborators,
recorded in program order. -/
inductive Event
  | sendStart (req : StartTransactionReq)
  | sendStop (req : StopTransactionReq)
  | fifoSend (action : String)
  | fifoPop
  | persist (connectorId : Nat)
  | authUpdate (idTag : String) (info : IdTagInfo)
  | deAuthorized (connectorId : Nat)
  | remoteStartRequested (connectorId : Nat) (idTag : String)
  | clearReservation (connectorId : Nat)
  | startSampledMeterValues (connectorId : Nat)
  | stopSampledMeterValues (connectorId : Nat)
  | assignPendingTxProfiles (connectorId : Nat) (txId : Int)
  | clearTxProfiles (connectorId : Nat)
  | installTxProfile (connectorId : Nat)
  | armTimerMs (ms : Nat)
  deriving DecidableEq, Repr

/-- Mutable state of the TransactionManager touched by start/stop:
the connector records and the transaction FIFO. -/
structure TMState where
  connectors : List Connector
  fifo : List FifoEntry
  deriving DecidableEq, Repr

/-- Connectors::getConnector — look a connector up by its id. -/
def getConnector (cs : List Connector) (cid : Nat) : Option Connector :=
  cs.find? (fun c => c.id == cid)

/-- Connectors::getChargePointConnector — the connector with id 0 (always
present in the real container). -/
def getChargePointConnector (cs : List Connector) : Connector :=
  (getConnector cs 0).getD default

/-- Replace the fields of the connector with id `cid` using `f` (the real code
mutates the record in place under the connector mutex). -/
def updateConnector (cs : List Connector) (cid : Nat) (f : Connector → Connector) :
    List Connector :=
  cs.map (fun c => if c.id == cid then f c else c)

/-- Environment for startTransaction: answers of the collaborators consulted
during the call (reservation manager, configuration, events handler, clock,
message sender). -/
structure StartEnv where
  isTransactionAllowed : Nat → String → AuthorizationStatus
  reserveConnectorZeroSupported : Bool
  meterStart : Int
  now : Nat
  sendStartOk : Bool
  startConf : StartTransactionConf
  compStopOk : Bool

/-- Lines 118-153: build the StartTransaction.req, handling a reservation on
the target connector, or — when ReserveConnectorZeroSupported — a reservation
on the whole charge point.  Returns the request and the reservation-manager
calls made. -/
def buildStartReq (env : StartEnv) (cs : List Connector) (connector : Connector)
    (cid : Nat) (tag : String) : StartTransactionReq × List Event :=
  let req : StartTransactionReq :=
    { connectorId := cid, idTag := tag, meterStart := env.meterStart,
      timestamp := env.now, reservationId := none }
  if connector.status = ChargePointStatus.Reserved then
    ({ req with reservationId := some connector.reservation_id },
     [Event.clearReservation cid])
  else if env.reserveConnectorZeroSupported then
    let cp := getChargePointConnector cs
    if cp.status = ChargePointStatus.Reserved ∧
        env.isTransactionAllowed 0 tag = AuthorizationStatus.Accepted then
      ({ req with reservationId := some cp.reservation_id },
       [Event.clearReservation cid])
    else (req, [])
  else (req, [])

/-- Lines 179-198: effects of the accepted branch — under the connector lock
set transaction id, start time and id tag, persist the record, then assign
pending charging profiles and start sampled meter values. -/
def startAcceptedEffects (s : TMState) (cid : Nat) (tag : String) (txId : Int)
    (now : Nat) : TMState × List Event :=
  let cs := updateConnector s.connectors cid (fun c =>
    { c with transaction_id := txId, transaction_start := now,
             transaction_id_tag := tag })
  ({ s with connectors := cs },
   [Event.persist cid, Event.assignPendingTxProfiles cid txId,
    Event.startSampledMeterValues cid])

/-- Lines 199-214: refused branch — send a compensating StopTransaction.req
with reason DeAuthorized, meterStop equal to the start request's meterStart,
and the transaction id carried by the start response.  The send has the FIFO
attached, so a failed send appends the request to the FIFO. -/
def compensatingStop (env : StartEnv) (s : TMState) (req : StartTransactionReq)
    (txId : Int) : TMState × List Event :=
  let stopReq : StopTransactionReq :=
    { transactionId := txId, idTag := none, meterStop := req.meterStart,
      timestamp := req.timestamp, reason := Reason.DeAuthorized,
      transactionData := [] }
  if env.compStopOk then
    (s, [Event.sendStop stopReq])
  else
    ({ s with fifo := s.fifo ++ [⟨STOP_TRANSACTION_ACTION, FifoPayload.stopReq stopReq⟩] },
     [Event.sendStop stopReq])

/-- TransactionManager::startTransaction (lines 102-220).  Returns the
authorization status reported to the caller, the new state, and the ordered
trace of collaborator calls. -/
def startTransaction (env : StartEnv) (s : TMState) (cid : Nat) (tag : String) :
    AuthorizationStatus × TMState × List Event :=
  if cid = 0 then (AuthorizationStatus.Invalid, s, [])
  else
    match getConnector s.connectors cid with
    | none => (AuthorizationStatus.Invalid, s, [])
    | some connector =>
      let ret := env.isTransactionAllowed cid tag
      if ret = AuthorizationStatus.Accepted then
        let built := buildStartReq env s.connectors connector cid tag
        let req := built.1
        let evs1 := built.2
        if env.sendStartOk then
          let conf := env.startConf
          let st := conf.idTagInfo.status
          let evs2 := evs1 ++ [Event.sendStart req] ++
            (if st ≠ AuthorizationStatus.ConcurrentTx then
              [Event.authUpdate tag conf.idTagInfo] else [])
          if st = AuthorizationStatus.Accepted then
            let eff := startAcceptedEffects s cid tag conf.transactionId env.now
            (AuthorizationStatus.Accepted, eff.1, evs2 ++ eff.2)
          else
            let eff := compensatingStop env s req conf.transactionId
            (st, eff.1, evs2 ++ eff.2)
        else
          let s1 : TMState :=
            { s with fifo := s.fifo ++ [⟨START_TRANSACTION_ACTION, FifoPayload.startReq req⟩] }
          let eff := startAcceptedEffects s1 cid tag (-1) env.now
          (AuthorizationStatus.Accepted, eff.1, evs1 ++ [Event.sendStart req] ++ eff.2)
      else (ret, s, [])

/-- Environment for stopTransaction: meter reading, clock, the pre-stop
transaction data from the meter values manager, and the sender's behavior. -/
structure StopEnv where
  meterStop : Int
  now : Nat
  txData : List Int
  sendOk : Bool
  stopConf : StopTransactionConf

/-- TransactionManager::stopTransaction (lines 223-282).  Returns whether a
transaction was stopped, the new state, and the ordered trace of
collaborator calls. -/
def stopTransaction (env : StopEnv) (s : TMState) (cid : Nat) (tag : String)
    (reason : Reason) : Bool × TMState × List Event :=
  match getConnector s.connectors cid with
  | none => (false, s, [])
  | some connector =>
    if connector.transaction_id = 0 then (false, s, [])
    else
      let req : StopTransactionReq :=
        { transactionId := connector.transaction_id,
          idTag := if tag = "" then none else some tag,
          meterStop := env.meterStop, timestamp := env.now,
          reason := reason, transactionData := env.txData }
      let cs := updateConnector s.connectors cid (fun c =>
        { c with transaction_id := 0, transaction_id_tag := "",
                 transaction_start := 0 })
      let s1 : TMState := { s with connectors := cs }
      let evs := [Event.stopSampledMeterValues cid, Event.persist cid,
                  Event.sendStop req]
      if env.sendOk then
        let evs2 := evs ++
          (match env.stopConf.idTagInfo with
           | some info => [Event.authUpdate tag info]
           | none => []) ++ [Event.clearTxProfiles cid]
        (true, s1, evs2)
      else
        (true,
         { s1 with fifo := s1.fifo ++ [⟨STOP_TRANSACTION_ACTION, FifoPayload.stopReq req⟩] },
         evs ++ [Event.clearTxProfiles cid])

/-- RemoteStartTransaction.req message (chargingProfile kept opaque; only its
presence matters to the transaction core). -/
structure RemoteStartTransactionReq where
  connectorId : Option Nat
  idTag : String
  chargingProfile : Option Nat
  deriving DecidableEq, Repr

/-- Environment for the RemoteStartTransaction handler: reservation manager
answer, the events handler's verdict, and the smart charging manager's
verdict on profile installation. -/
structure RemoteStartEnv where
  isTransactionAllowed : Nat → String → AuthorizationStatus
  eventsHandlerAccepts : Bool
  installProfileOk : Bool

/-- TransactionManager::handleMessage for RemoteStartTransaction.req
(lines 289-336).  Returns the response status and the trace of events-handler
and smart-charging calls. -/
def handleMessageRemoteStart (env : RemoteStartEnv) (cs : List Connector)
    (request : RemoteStartTransactionReq) : RemoteStartStopStatus × List Event :=
  let verdict :=
    match request.connectorId with
    | none => (false, ([] : List Event))
    | some cid =>
      if cid = 0 then (false, [])
      else
        match getConnector cs cid with
        | none => (false, [])
        | some connector =>
          if connector.status ≠ ChargePointStatus.Unavailable ∧
              connector.transaction_id = 0 ∧
              env.isTransactionAllowed cid request.idTag = AuthorizationStatus.Accepted then
            let authorized := env.eventsHandlerAccepts
            let evs := [Event.remoteStartRequested cid request.idTag]
            if authorized ∧ request.chargingProfile.isSome then
              (env.installProfileOk, evs ++ [Event.installTxProfile cid])
            else (authorized, evs)
          else (false, [])
  (if verdict.1 then RemoteStartStopStatus.Accepted else RemoteStartStopStatus.Rejected,
   verdict.2)

/-- Environment for the FIFO drainer: connection and registration state and
the two configuration keys it reads. -/
structure DrainEnv where
  connected : Bool
  registration : RegistrationStatus
  attempts : Nat
  retryIntervalSec : Nat

/-- Outcome of one sender call performed by the drainer: success (carrying
the StartTransaction.conf, which is the only response body the drainer
inspects), or failure. -/
inductive SendOutcome
  | ok (conf : StartTransactionConf)
  | failed
  deriving DecidableEq, Repr

/-- Mutable state touched by processFifoRequest: connectors, the FIFO, the
shared retry counter and whether the retry timer is armed. -/
structure DrainState where
  connectors : List Connector
  fifo : List FifoEntry
  retryCount : Nat
  timerArmed : Bool
  deriving DecidableEq, Repr

/-- The drainer's parse of a queued StartTransaction payload
(StartTransactionReqConverter::fromJson; a payload of any other shape parses
to a default-initialized request, matching the ignored error path). -/
def parseStartReq : FifoPayload → StartTransactionReq
  | FifoPayload.startReq r => r
  | _ => { connectorId := 0, idTag := "", meterStart := 0, timestamp := 0,
           reservationId := none }

/-- Lines 416-433: side effects after a queued StartTransaction was sent
successfully — update the authorization cache unless the status is
ConcurrentTx, and when the status is not Accepted notify
transactionDeAuthorized on the connector holding the matching provisional
transaction (transaction_id == -1, same id tag). -/
def startSuccessEvents (cs : List Connector) (req : StartTransactionReq)
    (conf : StartTransactionConf) : List Event :=
  (if conf.idTagInfo.status ≠ AuthorizationStatus.ConcurrentTx then
    [Event.authUpdate req.idTag conf.idTagInfo] else []) ++
  (if conf.idTagInfo.status ≠ AuthorizationStatus.Accepted then
    match getConnector cs req.connectorId with
    | some c =>
      if c.transaction_id = -1 ∧ c.transaction_id_tag = req.idTag then
        [Event.deAuthorized c.id]
      else []
    | none => []
   else [])

/-- Lines 453-460: on a successful send, pop the head of the FIFO and reset
the retry counter. -/
def handleSuccess (s : DrainState) : DrainState × List Event :=
  ({ s with fifo := s.fifo.tail, retryCount := 0 }, [Event.fifoPop])

/-- Lines 461-482: on a failed send, increment the retry counter; once it
exceeds TransactionMessageAttempts drop the head and reset the counter;
otherwise, if still connected, arm the retry timer for
TransactionMessageRetryInterval seconds. -/
def handleFailure (env : DrainEnv) (s : DrainState) : DrainState × List Event :=
  let c := s.retryCount + 1
  if c > env.attempts then
    ({ s with fifo := s.fifo.tail, retryCount := 0 }, [Event.fifoPop])
  else
    if env.connected then
      ({ s with retryCount := c, timerArmed := true },
       [Event.armTimerMs (env.retryIntervalSec * 1000)])
    else
      ({ s with retryCount := c }, [])

/-- Lines 400-452: dispatch on the head entry's action and perform the send.
Known actions consume the next sender outcome (exhausted outcomes behave as
a failed send); an unknown action performs no send and is treated as failed.
Returns (send succeeded, events before the success/failure handling,
remaining outcomes). -/
def sendHead (env : DrainEnv) (s : DrainState) (entry : FifoEntry)
    (outcomes : List SendOutcome) : Bool × List Event × List SendOutcome :=
  if entry.action == START_TRANSACTION_ACTION then
    match outcomes with
    | [] => (false, [Event.fifoSend entry.action], [])
    | SendOutcome.failed :: outs => (false, [Event.fifoSend entry.action], outs)
    | SendOutcome.ok conf :: outs =>
      (true,
       Event.fifoSend entry.action ::
         startSuccessEvents s.connectors (parseStartReq entry.payload) conf,
       outs)
  else if entry.action == STOP_TRANSACTION_ACTION ∨ entry.action == METER_VALUES_ACTION then
    match outcomes with
    | [] => (false, [Event.fifoSend entry.action], [])
    | SendOutcome.failed :: outs => (false, [Event.fifoSend entry.action], outs)
    | SendOutcome.ok _ :: outs => (true, [Event.fifoSend entry.action], outs)
  else
    (false, [], outcomes)

/-- One iteration of the drain loop body (lines 392-483): peek the head,
send it, then handle success or failure. -/
def drainBody (env : DrainEnv) (s : DrainState) (outcomes : List SendOutcome) :
    DrainState × List Event × List SendOutcome :=
  match s.fifo with
  | [] => (s, [], outcomes)
  | entry :: _ =>
    let sent := sendHead env s entry outcomes
    if sent.1 then
      let eff := handleSuccess s
      (eff.1, sent.2.1 ++ eff.2, sent.2.2)
    else
      let eff := handleFailure env s
      (eff.1, sent.2.1 ++ eff.2, sent.2.2)

/-- The do-while drain loop (lines 390-484): run the body, then continue
while the FIFO is non-empty, the retry timer is not armed and the transport
is still connected.  Fuel bounds the iteration count. -/
def drainLoop (env : DrainEnv) : Nat → DrainState → List SendOutcome →
    DrainState × List Event
  | 0, s, _ => (s, [])
  | fuel + 1, s, outcomes =>
    let step := drainBody env s outcomes
    if step.1.fifo ≠ [] ∧ step.1.timerArmed = false ∧ env.connected then
      let rest := drainLoop env fuel step.1 step.2.2
      (rest.1, step.2.1 ++ rest.2)
    else (step.1, step.2.1)

/-- TransactionManager::processFifoRequest (lines 382-492): gate on the
transport connection and the registration status, then drain; when connected
but not yet accepted by the central system, arm the timer for 250 ms and
return. -/
def processFifoRequest (env : DrainEnv) (fuel : Nat) (s : DrainState)
    (outcomes : List SendOutcome) : DrainState × List Event :=
  if env.connected then
    if env.registration = RegistrationStatus.Accepted then
      drainLoop env fuel s outcomes
    else
      ({ s with timerArmed := true }, [Event.armTimerMs 250])
  else (s, [])

/-- Send attempts spent on a single head entry, across timer re-invocations
of the drainer, until the entry is popped: each list element is one sender
outcome (true = success).  One unfolding step matches handleSuccess /
handleFailure exactly: success pops after this attempt; failure pops when the
incremented counter exceeds TransactionMessageAttempts, and otherwise leaves
the entry at the head with the incremented counter. -/
def headAttemptsUntilPop (env : DrainEnv) (count : Nat) : List Bool → Nat
  | [] => 0
  | ok :: rest =>
    if ok then 1
    else if count + 1 > env.attempts then 1
    else 1 + headAttemptsUntilPop env (count + 1) rest

/-- Looking up the updated connector id after updateConnector applies the
update function to the looked-up record, provided the update preserves ids. -/
theorem getConnector_update (cs : List Connector) (cid : Nat)
    (f : Connector → Connector) (hf : ∀ c, (f c).id = c.id) :
    getConnector (updateConnector cs cid f) cid = (getConnector cs cid).map f := by
  induction cs with
  | nil => rfl
  | cons c rest ih =>
    simp only [getConnector, updateConnector, List.map_cons, List.find?_cons] at ih ⊢
    by_cases h : c.id = cid
    · simp [h, hf c]
    · have hb : (c.id == cid) = false := by simp [h]
      simp [hb]
      simpa using ih

/-- The request built by buildStartReq always carries the connector id, the
id tag, the hardware meter reading and the current time, whatever the
reservation situation. -/
theorem buildStartReq_fields (env : StartEnv) (cs : List Connector)
    (connector : Connector) (cid : Nat) (tag : String) :
    (buildStartReq env cs connector cid tag).1.connectorId = cid ∧
    (buildStartReq env cs connector cid tag).1.idTag = tag ∧
    (buildStartReq env cs connector cid tag).1.meterStart = env.meterStart ∧
    (buildStartReq env cs connector cid tag).1.timestamp = env.now := by
  by_cases h1 : connector.status = ChargePointStatus.Reserved
  · simp [buildStartReq, h1]
  · by_cases h2 : env.reserveConnectorZeroSupported = true
    · by_cases h3 : (getChargePointConnector cs).status = ChargePointStatus.Reserved ∧
          env.isTransactionAllowed 0 tag = AuthorizationStatus.Accepted
      · simp [buildStartReq, h1, h2, h3]
      · simp [buildStartReq, h1, h2, h3]
    · simp [buildStartReq, h1, h2]

/-- C1: if start_transaction is called with connector_id different from 0, an
existing connector and an Accepted reservation check, and the send of the
StartTransactionReq fails, then it returns Accepted, the connector adopts the
provisional transaction id -1 and the id tag, the record is persisted, and
the start request has been captured into the FIFO; the failure is not
surfaced to the caller. -/
theorem C1_offline_start_provisional (env : StartEnv) (s : TMState) (cid : Nat)
    (tag : String) (c : Connector)
    (hcid : cid ≠ 0)
    (hc : getConnector s.connectors cid = some c)
    (hres : env.isTransactionAllowed cid tag = AuthorizationStatus.Accepted)
    (hsend : env.sendStartOk = false) :
    (startTransaction env s cid tag).1 = AuthorizationStatus.Accepted ∧
    getConnector (startTransaction env s cid tag).2.1.connectors cid =
      some { c with transaction_id := -1, transaction_start := env.now,
                    transaction_id_tag := tag } ∧
    Event.persist cid ∈ (startTransaction env s cid tag).2.2 ∧
    ∃ req : StartTransactionReq,
      (startTransaction env s cid tag).2.1.fifo =
        s.fifo ++ [⟨START_TRANSACTION_ACTION, FifoPayload.startReq req⟩] ∧
      req.connectorId = cid ∧ req.idTag = tag := by
  have hfields := buildStartReq_fields env s.connectors c cid tag
  have hupd := getConnector_update s.connectors cid
    (fun x => { x with transaction_id := -1, transaction_start := env.now,
                       transaction_id_tag := tag })
    (fun x => rfl)
  simp only [startTransaction, hc, hres, hsend, if_neg hcid, eq_self_iff_true,
    if_true, Bool.false_eq_true, if_false, startAcceptedEffects]
  refine ⟨trivial, ?_, ?_, ?_⟩
  · rw [hupd, hc]
    rfl
  · simp
  · exact ⟨(buildStartReq env s.connectors c cid tag).1, rfl, hfields.1, hfields.2.1⟩

/-- C2: whenever the connector exists and has a running transaction,
stop_transaction resets the connector record (transaction id 0, id tag and
start time cleared) and persists it BEFORE the StopTransactionReq send is
attempted (the persist call precedes the send in the trace), and returns
true for every sender behavior, success or failure. -/
theorem C2_stop_resets_before_send (env : StopEnv) (s : TMState) (cid : Nat)
    (tag : String) (reason : Reason) (c : Connector)
    (hc : getConnector s.connectors cid = some c)
    (htx : ¬ c.transaction_id = 0) :
    (stopTransaction env s cid tag reason).1 = true ∧
    getConnector (stopTransaction env s cid tag reason).2.1.connectors cid =
      some { c with transaction_id := 0, transaction_id_tag := "",
                    transaction_start := 0 } ∧
    (stopTransaction env s cid tag reason).2.2.take 3 =
      [Event.stopSampledMeterValues cid, Event.persist cid,
       Event.sendStop
         { transactionId := c.transaction_id,
           idTag := if tag = "" then none else some tag,
           meterStop := env.meterStop, timestamp := env.now,
           reason := reason, transactionData := env.txData }] := by
  have hupd := getConnector_update s.connectors cid
    (fun x => { x with transaction_id := 0, transaction_id_tag := "",
                       transaction_start := 0 }) (fun x => rfl)
  simp only [stopTransaction, hc, if_neg htx]
  by_cases hs : env.sendOk = true
  · simp only [hs, if_true]
    refine ⟨trivial, ?_, rfl⟩
    rw [hupd, hc]
    rfl
  · rw [if_neg hs]
    refine ⟨rfl, ?_, rfl⟩
    rw [hupd, hc]
    rfl

/-- C10: stop_transaction never compares the supplied id tag with the stored
transaction_id_tag — for every connector with a running transaction, any
supplied id tag (matching, mismatching or empty) ends the transaction and
returns true, and an empty id tag merely leaves the optional idTag field out
of the StopTransactionReq. -/
theorem C10_stop_ignores_id_tag (env : StopEnv) (s : TMState) (cid : Nat)
    (tag : String) (reason : Reason) (c : Connector)
    (hc : getConnector s.connectors cid = some c)
    (htx : ¬ c.transaction_id = 0) :
    (stopTransaction env s cid tag reason).1 = true ∧
    getConnector (stopTransaction env s cid tag reason).2.1.connectors cid =
      some { c with transaction_id := 0, transaction_id_tag := "",
                    transaction_start := 0 } ∧
    Event.sendStop
      { transactionId := c.transaction_id,
        idTag := if tag = "" then none else some tag,
        meterStop := env.meterStop, timestamp := env.now,
        reason := reason, transactionData := env.txData } ∈
      (stopTransaction env s cid tag reason).2.2 := by
  have hupd := getConnector_update s.connectors cid
    (fun x => { x with transaction_id := 0, transaction_id_tag := "",
                       transaction_start := 0 }) (fun x => rfl)
  simp only [stopTransaction, hc, if_neg htx]
  by_cases hs : env.sendOk = true
  · simp only [hs, if_true]
    refine ⟨trivial, ?_, by simp⟩
    rw [hupd, hc]
    rfl
  · rw [if_neg hs]
    refine ⟨rfl, ?_, by simp⟩
    rw [hupd, hc]
    rfl

/-- Concrete state with connector 1 busy: it carries running transaction 10
for id tag OLD. -/
def busyState : TMState :=
  { connectors :=
      [{ id := 0, status := ChargePointStatus.Available, transaction_id := 0,
         transaction_start := 0, transaction_id_tag := "", reservation_id := 0 },
       { id := 1, status := ChargePointStatus.Charging, transaction_id := 10,
         transaction_start := 5, transaction_id_tag := "OLD", reservation_id := 0 }],
    fifo := [] }

/-- Concrete environment where the reservation manager accepts every id tag
and the central system answers Accepted with transaction id 42. -/
def busyEnv : StartEnv :=
  { isTransactionAllowed := fun _ _ => AuthorizationStatus.Accepted,
    reserveConnectorZeroSupported := false, meterStart := 100, now := 7,
    sendStartOk := true,
    startConf := { transactionId := 42,
                   idTagInfo := { status := AuthorizationStatus.Accepted } },
    compStopOk := true }

/-- C5 counterexample: the claim asserts that a transaction already running
on the connector makes start_transaction return Invalid without sending any
message or mutating connector state, but startTransaction performs no such
check.  With connector 1 busy (transaction_id = 10) and the reservation
manager accepting, a new start on connector 1 returns Accepted (not
Invalid), overwrites the running transaction with id 42, and sends a
StartTransactionReq. -/
theorem C5_counterexample_busy_connector :
    (startTransaction busyEnv busyState 1 "NEW").1 = AuthorizationStatus.Accepted ∧
    ¬ (startTransaction busyEnv busyState 1 "NEW").1 = AuthorizationStatus.Invalid ∧
    getConnector (startTransaction busyEnv busyState 1 "NEW").2.1.connectors 1 =
      some { id := 1, status := ChargePointStatus.Charging, transaction_id := 42,
             transaction_start := 7, transaction_id_tag := "NEW",
             reservation_id := 0 } ∧
    Event.sendStart { connectorId := 1, idTag := "NEW", meterStart := 100,
                      timestamp := 7, reservationId := none } ∈
      (startTransaction busyEnv busyState 1 "NEW").2.2 := by
  refine ⟨by decide, by decide, by decide, by decide⟩

/-- C5 amended: start_transaction returns Invalid without sending any message
or mutating state exactly when the connector id is 0 or no such connector
exists — it performs no check that a transaction is already running on the
connector; and stop_transaction returns false without sending or mutating
when the connector does not exist or its transaction_id is 0. -/
theorem C5_amended_preconditions (envS : StartEnv) (envT : StopEnv)
    (s : TMState) (cid : Nat) (tag : String) (reason : Reason) :
    (cid = 0 →
      startTransaction envS s cid tag = (AuthorizationStatus.Invalid, s, [])) ∧
    (getConnector s.connectors cid = none →
      startTransaction envS s cid tag = (AuthorizationStatus.Invalid, s, [])) ∧
    (getConnector s.connectors cid = none →
      stopTransaction envT s cid tag reason = (false, s, [])) ∧
    (∀ c, getConnector s.connectors cid = some c → c.transaction_id = 0 →
      stopTransaction envT s cid tag reason = (false, s, [])) := by
  refine ⟨?_, ?_, ?_, ?_⟩
  · intro h
    simp [startTransaction, h]
  · intro h
    by_cases h0 : cid = 0
    · simp [startTransaction, h0]
    · simp [startTransaction, h0, h]
  · intro h
    simp [stopTransaction, h]
  · intro c hc htx
    simp [stopTransaction, hc, htx]

/-- C6: when the StartTransactionReq send succeeds but the response status is
not Accepted, start_transaction returns that status, sends a compensating
StopTransactionReq with reason DeAuthorized, meterStop equal to the start
request's meterStart and the transactionId carried by the start response,
and leaves the connector's transaction fields untouched. -/
theorem C6_rejected_start_compensating_stop (env : StartEnv) (s : TMState)
    (cid : Nat) (tag : String) (c : Connector)
    (hcid : cid ≠ 0)
    (hc : getConnector s.connectors cid = some c)
    (hres : env.isTransactionAllowed cid tag = AuthorizationStatus.Accepted)
    (hsend : env.sendStartOk = true)
    (hst : ¬ env.startConf.idTagInfo.status = AuthorizationStatus.Accepted) :
    (startTransaction env s cid tag).1 = env.startConf.idTagInfo.status ∧
    getConnector (startTransaction env s cid tag).2.1.connectors cid = some c ∧
    Event.sendStop
      { transactionId := env.startConf.transactionId, idTag := none,
        meterStop := env.meterStart, timestamp := env.now,
        reason := Reason.DeAuthorized, transactionData := [] } ∈
      (startTransaction env s cid tag).2.2 := by
  have hreq := buildStartReq_fields env s.connectors c cid tag
  simp only [startTransaction, hc, hres, hsend, if_neg hcid, eq_self_iff_true,
    if_true, if_neg hst, compensatingStop]
  rw [hreq.2.2.1, hreq.2.2.2]
  by_cases hcomp : env.compStopOk = true
  · rw [if_pos hcomp]
    exact ⟨trivial, hc, by simp⟩
  · rw [if_neg hcomp]
    exact ⟨trivial, hc, by simp⟩

/-- C8: a RemoteStartTransactionReq is answered Rejected unless connectorId
is set and non-zero, the connector exists, its status is not Unavailable, no
transaction runs on it and the reservation manager accepts the id tag; in
every failing case the events handler is not invoked (empty trace); and when
the events handler accepts but the supplied charging profile fails to
install, the response is downgraded to Rejected. -/
theorem C8_remote_start_guarding (env : RemoteStartEnv) (cs : List Connector)
    (request : RemoteStartTransactionReq) :
    (request.connectorId = none →
      handleMessageRemoteStart env cs request = (RemoteStartStopStatus.Rejected, [])) ∧
    (request.connectorId = some 0 →
      handleMessageRemoteStart env cs request = (RemoteStartStopStatus.Rejected, [])) ∧
    (∀ cid, request.connectorId = some cid → getConnector cs cid = none →
      handleMessageRemoteStart env cs request = (RemoteStartStopStatus.Rejected, [])) ∧
    (∀ cid c, request.connectorId = some cid → getConnector cs cid = some c →
      (c.status = ChargePointStatus.Unavailable ∨ ¬ c.transaction_id = 0 ∨
        ¬ env.isTransactionAllowed cid request.idTag = AuthorizationStatus.Accepted) →
      handleMessageRemoteStart env cs request = (RemoteStartStopStatus.Rejected, [])) ∧
    (∀ cid c, request.connectorId = some cid → ¬ cid = 0 →
      getConnector cs cid = some c →
      ¬ c.status = ChargePointStatus.Unavailable → c.transaction_id = 0 →
      env.isTransactionAllowed cid request.idTag = AuthorizationStatus.Accepted →
      env.eventsHandlerAccepts = true → request.chargingProfile.isSome = true →
      env.installProfileOk = false →
      (handleMessageRemoteStart env cs request).1 = RemoteStartStopStatus.Rejected) := by
  refine ⟨?_, ?_, ?_, ?_, ?_⟩
  · intro h
    simp [handleMessageRemoteStart, h]
  · intro h
    simp [handleMessageRemoteStart, h]
  · intro cid h hnone
    by_cases h0 : cid = 0
    · simp [handleMessageRemoteStart, h, h0]
    · simp [handleMessageRemoteStart, h, h0, hnone]
  · intro cid c h hc hbad
    by_cases h0 : cid = 0
    · simp [handleMessageRemoteStart, h, h0]
    · have hcond : ¬ (¬ c.status = ChargePointStatus.Unavailable ∧
          c.transaction_id = 0 ∧
          env.isTransactionAllowed cid request.idTag = AuthorizationStatus.Accepted) := by
        tauto
      simp [handleMessageRemoteStart, h, h0, hc, hcond]
  · intro cid c h h0 hc hun htx hall hacc hprof hinst
    have hcond : ¬ c.status = ChargePointStatus.Unavailable ∧
        c.transaction_id = 0 ∧
        env.isTransactionAllowed cid request.idTag = AuthorizationStatus.Accepted :=
      ⟨hun, htx, hall⟩
    simp [handleMessageRemoteStart, h, h0, hc, hcond, hacc, hprof, hinst]

/-- C3: processFifoRequest performs no send while the transport is
disconnected or while the registration status is not Accepted; in the case
where the transport is connected but registration is not Accepted it arms
the retry timer for 250 ms and returns with the FIFO untouched. -/
theorem C3_drain_gating (env : DrainEnv) (fuel : Nat) (s : DrainState)
    (outcomes : List SendOutcome) :
    (env.connected = false →
      processFifoRequest env fuel s outcomes = (s, [])) ∧
    (env.connected = true → ¬ env.registration = RegistrationStatus.Accepted →
      processFifoRequest env fuel s outcomes =
        ({ s with timerArmed := true }, [Event.armTimerMs 250])) ∧
    (¬ (env.connected = true ∧ env.registration = RegistrationStatus.Accepted) →
      ∀ a, ¬ Event.fifoSend a ∈ (processFifoRequest env fuel s outcomes).2) := by
  refine ⟨?_, ?_, ?_⟩
  · intro h
    simp [processFifoRequest, h]
  · intro h hreg
    simp [processFifoRequest, h, hreg]
  · intro h a
    by_cases hcon : env.connected = true
    · have hreg : ¬ env.registration = RegistrationStatus.Accepted := by tauto
      simp [processFifoRequest, hcon, hreg]
    · simp [processFifoRequest, hcon]

/-- Iterating the drainer's failure handling from retry counter `count` not
above the configured attempts spends at most attempts + 1 - count further
send attempts on the head entry. -/
theorem headAttempts_le (env : DrainEnv) (results : List Bool) :
    ∀ count, count ≤ env.attempts →
      headAttemptsUntilPop env count results ≤ env.attempts + 1 - count := by
  induction results with
  | nil =>
    intro count h
    simp [headAttemptsUntilPop]
  | cons ok rest ih =>
    intro count h
    by_cases hok : ok = true
    · simp [headAttemptsUntilPop, hok]
      omega
    · have hok2 : ok = false := by
        cases ok
        · rfl
        · exact absurd rfl hok
      by_cases hgt : count + 1 > env.attempts
      · simp [headAttemptsUntilPop, hok2, hgt]
        omega
      · have hle : count + 1 ≤ env.attempts := by omega
        have hrec := ih (count + 1) hle
        simp [headAttemptsUntilPop, hok2, hgt]
        omega

/-- C4: for a single head entry of the FIFO the drainer never makes more than
TransactionMessageAttempts + 1 send attempts before the entry is popped:
a successful send pops the head and resets the shared retry counter to 0; a
failed send increments the counter, and pops the head and resets the counter
exactly when the incremented counter exceeds TransactionMessageAttempts;
iterating this step (headAttemptsUntilPop) from the fresh counter value 0
left behind by every pop bounds the attempts on the head by attempts + 1. -/
theorem C4_retry_bound (env : DrainEnv) (s : DrainState) (results : List Bool) :
    ((handleSuccess s).1.fifo = s.fifo.tail ∧ (handleSuccess s).1.retryCount = 0) ∧
    (s.retryCount + 1 > env.attempts →
      (handleFailure env s).1.fifo = s.fifo.tail ∧
      (handleFailure env s).1.retryCount = 0) ∧
    (s.retryCount + 1 ≤ env.attempts →
      (handleFailure env s).1.fifo = s.fifo ∧
      (handleFailure env s).1.retryCount = s.retryCount + 1) ∧
    headAttemptsUntilPop env 0 results ≤ env.attempts + 1 := by
  refine ⟨⟨rfl, rfl⟩, ?_, ?_, ?_⟩
  · intro h
    simp [handleFailure, h]
  · intro h
    have hng : ¬ s.retryCount + 1 > env.attempts := by omega
    by_cases hcon : env.connected = true <;> simp [handleFailure, hng, hcon]
  · have hb := headAttempts_le env results 0 (Nat.zero_le _)
    omega

/-- C7: when the drainer successfully sends a queued StartTransaction entry,
the authorization cache is updated with the request's id tag and the
response's idTagInfo unless the status is ConcurrentTx; and when the status
is not Accepted, the connector named in the queued request that holds the
provisional transaction (transaction_id = -1) under the same id tag receives
exactly one transactionDeAuthorized callback. -/
theorem C7_drain_start_success_effects (env : DrainEnv) (s : DrainState)
    (entry : FifoEntry) (rest : List FifoEntry) (conf : StartTransactionConf)
    (outs : List SendOutcome)
    (hfifo : s.fifo = entry :: rest)
    (haction : entry.action = START_TRANSACTION_ACTION) :
    (¬ conf.idTagInfo.status = AuthorizationStatus.ConcurrentTx →
      Event.authUpdate (parseStartReq entry.payload).idTag conf.idTagInfo ∈
        (drainBody env s (SendOutcome.ok conf :: outs)).2.1) ∧
    (¬ conf.idTagInfo.status = AuthorizationStatus.Accepted →
      ∀ c, getConnector s.connectors (parseStartReq entry.payload).connectorId = some c →
        c.transaction_id = -1 →
        c.transaction_id_tag = (parseStartReq entry.payload).idTag →
        ((drainBody env s (SendOutcome.ok conf :: outs)).2.1.countP
          (fun e => decide (e = Event.deAuthorized c.id))) = 1) := by
  have hbeq : (entry.action == START_TRANSACTION_ACTION) = true := by
    simp [haction]
  refine ⟨?_, ?_⟩
  · intro hcx
    simp [drainBody, hfifo, sendHead, hbeq, startSuccessEvents, hcx, handleSuccess]
  · intro hacc c hc htx htag
    by_cases hcx : conf.idTagInfo.status = AuthorizationStatus.ConcurrentTx <;>
      simp [drainBody, hfifo, sendHead, hbeq, startSuccessEvents, hacc, hc, htx,
        htag, handleSuccess, hcx, List.countP_cons, List.countP_append]

/-- Concrete drainer state whose FIFO head is an entry with the unknown
action Heartbeat. -/
def unknownHeadState : DrainState :=
  { connectors := [], fifo := [⟨"Heartbeat", FifoPayload.other 0⟩],
    retryCount := 0, timerArmed := false }

/-- Concrete drainer environment: connected, registration Accepted,
TransactionMessageAttempts = 3, TransactionMessageRetryInterval = 60 s. -/
def unknownHeadEnv : DrainEnv :=
  { connected := true, registration := RegistrationStatus.Accepted,
    attempts := 3, retryIntervalSec := 60 }

/-- C9 counterexample: the claim asserts that an unknown head entry is
removed without consuming send attempts; but after one drainer run with a
fresh retry counter and attempts = 3, the Heartbeat entry is still at the
head of the FIFO — the retry counter was incremented to 1 and the retry
timer armed, exactly as for an ordinary failed send. -/
theorem C9_counterexample_unknown_entry_not_removed :
    (processFifoRequest unknownHeadEnv 5 unknownHeadState []).1.fifo =
      [⟨"Heartbeat", FifoPayload.other 0⟩] ∧
    (processFifoRequest unknownHeadEnv 5 unknownHeadState []).1.retryCount = 1 ∧
    (processFifoRequest unknownHeadEnv 5 unknownHeadState []).1.timerArmed = true := by
  refine ⟨by decide, by decide, by decide⟩

/-- C9 amended: a FIFO head entry whose action is none of StartTransaction,
StopTransaction or MeterValues is treated exactly as a failed send on which
no send is attempted and no sender outcome is consumed: the retry counter is
incremented, the entry is popped only once the counter exceeds
TransactionMessageAttempts, and otherwise it stays at the head with the
retry timer armed while connected. -/
theorem C9_amended_unknown_action (env : DrainEnv) (s : DrainState)
    (entry : FifoEntry) (rest : List FifoEntry) (outs : List SendOutcome)
    (hfifo : s.fifo = entry :: rest)
    (h1 : ¬ entry.action = START_TRANSACTION_ACTION)
    (h2 : ¬ entry.action = STOP_TRANSACTION_ACTION)
    (h3 : ¬ entry.action = METER_VALUES_ACTION) :
    (∀ a, ¬ Event.fifoSend a ∈ (drainBody env s outs).2.1) ∧
    (drainBody env s outs).2.2 = outs ∧
    (s.retryCount + 1 > env.attempts →
      (drainBody env s outs).1.fifo = rest ∧
      (drainBody env s outs).1.retryCount = 0) ∧
    (s.retryCount + 1 ≤ env.attempts →
      (drainBody env s outs).1.fifo = entry :: rest ∧
      (drainBody env s outs).1.retryCount = s.retryCount + 1 ∧
      (env.connected = true → (drainBody env s outs).1.timerArmed = true)) := by
  have hb1 : (entry.action == START_TRANSACTION_ACTION) = false := by simp [h1]
  have hb2 : (entry.action == STOP_TRANSACTION_ACTION) = false := by simp [h2]
  have hb3 : (entry.action == METER_VALUES_ACTION) = false := by simp [h3]
  refine ⟨?_, ?_, ?_, ?_⟩
  · intro a
    by_cases hgt : s.retryCount + 1 > env.attempts
    · simp [drainBody, hfifo, sendHead, hb1, hb2, hb3, handleFailure, hgt]
    · by_cases hcon : env.connected = true <;>
        simp [drainBody, hfifo, sendHead, hb1, hb2, hb3, handleFailure, hgt, hcon]
  · by_cases hgt : s.retryCount + 1 > env.attempts
    · simp [drainBody, hfifo, sendHead, hb1, hb2, hb3, handleFailure, hgt]
    · by_cases hcon : env.connected = true <;>
        simp [drainBody, hfifo, sendHead, hb1, hb2, hb3, handleFailure, hgt, hcon]
  · intro hgt
    simp [drainBody, hfifo, sendHead, hb1, hb2, hb3, handleFailure, hgt]
  · intro hle
    have hgt : ¬ s.retryCount + 1 > env.attempts := by omega
    by_cases hcon : env.connected = true <;>
      simp [drainBody, hfifo, sendHead, hb1, hb2, hb3, handleFailure, hgt, hcon]

/-- Charge point connector 0, idle. -/
def cp0 : Connector :=
  { id := 0, status := ChargePointStatus.Available, transaction_id := 0,
    transaction_start := 0, transaction_id_tag := "", reservation_id := 0 }

/-- Idle connector 2. -/
def conn2 : Connector :=
  { id := 2, status := ChargePointStatus.Preparing, transaction_id := 0,
    transaction_start := 0, transaction_id_tag := "", reservation_id := 0 }

/-- Connector 1 with running transaction 42 started for TAG01. -/
def activeConn1 : Connector :=
  { id := 1, status := ChargePointStatus.Charging, transaction_id := 42,
    transaction_start := 5, transaction_id_tag := "TAG01", reservation_id := 0 }

/-- Environment whose sender is offline (send fails) and whose reservation
manager accepts every id tag. -/
def offlineEnv : StartEnv :=
  { isTransactionAllowed := fun _ _ => AuthorizationStatus.Accepted,
    reserveConnectorZeroSupported := false, meterStart := 1000, now := 99,
    sendStartOk := false,
    startConf := { transactionId := 0,
                   idTagInfo := { status := AuthorizationStatus.Invalid } },
    compStopOk := true }

/-- Stop environment with a successful send and no idTagInfo in the
response. -/
def stopEnvW : StopEnv :=
  { meterStop := 2000, now := 123, txData := [7], sendOk := true,
    stopConf := { idTagInfo := none } }

theorem C1_offline_start_provisional_witness :
    ((2 : Nat) ≠ 0) ∧
    getConnector [cp0, conn2] 2 = some conn2 ∧
    offlineEnv.isTransactionAllowed 2 "TAG02" = AuthorizationStatus.Accepted ∧
    offlineEnv.sendStartOk = false ∧
    ((startTransaction offlineEnv ⟨[cp0, conn2], []⟩ 2 "TAG02").1 =
        AuthorizationStatus.Accepted ∧
      getConnector
          (startTransaction offlineEnv ⟨[cp0, conn2], []⟩ 2 "TAG02").2.1.connectors 2 =
        some { conn2 with transaction_id := -1, transaction_start := offlineEnv.now,
                          transaction_id_tag := "TAG02" } ∧
      Event.persist 2 ∈ (startTransaction offlineEnv ⟨[cp0, conn2], []⟩ 2 "TAG02").2.2 ∧
      ∃ req : StartTransactionReq,
        (startTransaction offlineEnv ⟨[cp0, conn2], []⟩ 2 "TAG02").2.1.fifo =
          [] ++ [⟨START_TRANSACTION_ACTION, FifoPayload.startReq req⟩] ∧
        req.connectorId = 2 ∧ req.idTag = "TAG02") :=
  ⟨by decide, by decide, rfl, rfl,
   C1_offline_start_provisional offlineEnv ⟨[cp0, conn2], []⟩ 2 "TAG02" conn2
     (by decide) (by decide) rfl rfl⟩

theorem C2_stop_resets_before_send_witness :
    getConnector [cp0, activeConn1] 1 = some activeConn1 ∧
    ¬ activeConn1.transaction_id = 0 ∧
    ((stopTransaction stopEnvW ⟨[cp0, activeConn1], []⟩ 1 "TAG01" Reason.Local).1 = true ∧
      getConnector
          (stopTransaction stopEnvW ⟨[cp0, activeConn1], []⟩ 1 "TAG01"
            Reason.Local).2.1.connectors 1 =
        some { activeConn1 with transaction_id := 0, transaction_id_tag := "",
                                transaction_start := 0 } ∧
      (stopTransaction stopEnvW ⟨[cp0, activeConn1], []⟩ 1 "TAG01"
          Reason.Local).2.2.take 3 =
        [Event.stopSampledMeterValues 1, Event.persist 1,
         Event.sendStop
           { transactionId := activeConn1.transaction_id,
             idTag := if "TAG01" = "" then none else some "TAG01",
             meterStop := stopEnvW.meterStop, timestamp := stopEnvW.now,
             reason := Reason.Local, transactionData := stopEnvW.txData }]) :=
  ⟨by decide, by decide,
   C2_stop_resets_before_send stopEnvW ⟨[cp0, activeConn1], []⟩ 1 "TAG01"
     Reason.Local activeConn1 (by decide) (by decide)⟩

theorem C10_stop_ignores_id_tag_witness :
    getConnector [cp0, activeConn1] 1 = some activeConn1 ∧
    ¬ activeConn1.transaction_id = 0 ∧
    ((stopTransaction stopEnvW ⟨[cp0, activeConn1], []⟩ 1 "MISMATCH" Reason.Remote).1 = true ∧
      getConnector
          (stopTransaction stopEnvW ⟨[cp0, activeConn1], []⟩ 1 "MISMATCH"
            Reason.Remote).2.1.connectors 1 =
        some { activeConn1 with transaction_id := 0, transaction_id_tag := "",
                                transaction_start := 0 } ∧
      Event.sendStop
          { transactionId := activeConn1.transaction_id,
            idTag := if "MISMATCH" = "" then none else some "MISMATCH",
            meterStop := stopEnvW.meterStop, timestamp := stopEnvW.now,
            reason := Reason.Remote, transactionData := stopEnvW.txData } ∈
        (stopTransaction stopEnvW ⟨[cp0, activeConn1], []⟩ 1 "MISMATCH"
          Reason.Remote).2.2) :=
  ⟨by decide, by decide,
   C10_stop_ignores_id_tag stopEnvW ⟨[cp0, activeConn1], []⟩ 1 "MISMATCH"
     Reason.Remote activeConn1 (by decide) (by decide)⟩

theorem C5_amended_preconditions_witness :
    startTransaction offlineEnv ⟨[cp0], []⟩ 0 "X" =
      (AuthorizationStatus.Invalid, ⟨[cp0], []⟩, []) ∧
    stopTransaction stopEnvW ⟨[cp0], []⟩ 7 "X" Reason.Local =
      (false, ⟨[cp0], []⟩, []) :=
  ⟨(C5_amended_preconditions offlineEnv stopEnvW ⟨[cp0], []⟩ 0 "X" Reason.Local).1 rfl,
   (C5_amended_preconditions offlineEnv stopEnvW ⟨[cp0], []⟩ 7 "X" Reason.Local).2.2.1
     (by decide)⟩

/-- Environment where the send succeeds but the central system answers
Blocked with transaction id 99 (scenario S5). -/
def rejectEnv : StartEnv :=
  { isTransactionAllowed := fun _ _ => AuthorizationStatus.Accepted,
    reserveConnectorZeroSupported := false, meterStart := 555, now := 10,
    sendStartOk := true,
    startConf := { transactionId := 99,
                   idTagInfo := { status := AuthorizationStatus.Blocked } },
    compStopOk := true }

theorem C6_rejected_start_compensating_stop_witness :
    ((2 : Nat) ≠ 0) ∧
    getConnector [cp0, conn2] 2 = some conn2 ∧
    rejectEnv.isTransactionAllowed 2 "TAG05" = AuthorizationStatus.Accepted ∧
    rejectEnv.sendStartOk = true ∧
    ¬ rejectEnv.startConf.idTagInfo.status = AuthorizationStatus.Accepted ∧
    ((startTransaction rejectEnv ⟨[cp0, conn2], []⟩ 2 "TAG05").1 =
        rejectEnv.startConf.idTagInfo.status ∧
      getConnector
          (startTransaction rejectEnv ⟨[cp0, conn2], []⟩ 2 "TAG05").2.1.connectors 2 =
        some conn2 ∧
      Event.sendStop
          { transactionId := 99, idTag := none, meterStop := 555, timestamp := 10,
            reason := Reason.DeAuthorized, transactionData := [] } ∈
        (startTransaction rejectEnv ⟨[cp0, conn2], []⟩ 2 "TAG05").2.2) :=
  ⟨by decide, by decide, rfl, rfl, by decide,
   C6_rejected_start_compensating_stop rejectEnv ⟨[cp0, conn2], []⟩ 2 "TAG05" conn2
     (by decide) (by decide) rfl rfl (by decide)⟩

/-- Remote start environment: reservation manager and events handler both
accept, profile installation succeeds. -/
def remoteEnvW : RemoteStartEnv :=
  { isTransactionAllowed := fun _ _ => AuthorizationStatus.Accepted,
    eventsHandlerAccepts := true, installProfileOk := true }

theorem C8_remote_start_guarding_witness :
    handleMessageRemoteStart remoteEnvW [cp0, activeConn1]
      { connectorId := some 1, idTag := "X", chargingProfile := none } =
      (RemoteStartStopStatus.Rejected, []) :=
  (C8_remote_start_guarding remoteEnvW [cp0, activeConn1]
      { connectorId := some 1, idTag := "X", chargingProfile := none }).2.2.2.1
    1 activeConn1 rfl (by decide) (Or.inr (Or.inl (by decide)))

theorem C3_drain_gating_witness :
    processFifoRequest
      { connected := true, registration := RegistrationStatus.Pending,
        attempts := 3, retryIntervalSec := 60 } 4
      { connectors := [], fifo := [], retryCount := 0, timerArmed := false } [] =
      ({ connectors := [], fifo := [], retryCount := 0, timerArmed := true },
       [Event.armTimerMs 250]) :=
  (C3_drain_gating
      { connected := true, registration := RegistrationStatus.Pending,
        attempts := 3, retryIntervalSec := 60 } 4
      { connectors := [], fifo := [], retryCount := 0, timerArmed := false } []).2.1
    rfl (by decide)

/-- Drainer state whose head has already failed three times: the shared
retry counter is 3 when the next attempt starts. -/
def exhaustedState : DrainState :=
  { connectors := [], fifo := [⟨"StopTransaction", FifoPayload.other 0⟩],
    retryCount := 3, timerArmed := false }

/-- Drainer environment: connected, registration Accepted, attempts 3. -/
def unknownHeadEnvW : DrainEnv :=
  { connected := true, registration := RegistrationStatus.Accepted,
    attempts := 3, retryIntervalSec := 60 }

theorem C4_retry_bound_witness :
    (exhaustedState.retryCount + 1 > unknownHeadEnvW.attempts) ∧
    ((handleFailure unknownHeadEnvW exhaustedState).1.fifo =
        exhaustedState.fifo.tail ∧
      (handleFailure unknownHeadEnvW exhaustedState).1.retryCount = 0) ∧
    headAttemptsUntilPop unknownHeadEnvW 0 [false, false, false, false, false] ≤
      unknownHeadEnvW.attempts + 1 :=
  ⟨by decide,
   (C4_retry_bound unknownHeadEnvW exhaustedState
       [false, false, false, false, false]).2.1 (by decide),
   (C4_retry_bound unknownHeadEnvW exhaustedState
       [false, false, false, false, false]).2.2.2⟩

/-- The queued StartTransaction request used in the drainer witnesses. -/
def startEntryW : FifoEntry :=
  ⟨"StartTransaction",
   FifoPayload.startReq
     { connectorId := 2, idTag := "TAG02", meterStart := 1000, timestamp := 50,
       reservationId := none }⟩

/-- Connector 2 holding the provisional transaction -1 for TAG02. -/
def provConn : Connector :=
  { id := 2, status := ChargePointStatus.Charging, transaction_id := -1,
    transaction_start := 50, transaction_id_tag := "TAG02", reservation_id := 0 }

/-- Drainer state with the provisional connector and the queued start entry
at the head of the FIFO. -/
def provState : DrainState :=
  { connectors := [provConn], fifo := [startEntryW], retryCount := 0,
    timerArmed := false }

/-- Central-system response rejecting the queued start: Blocked, id 77. -/
def blockedConf : StartTransactionConf :=
  { transactionId := 77, idTagInfo := { status := AuthorizationStatus.Blocked } }

theorem C7_drain_start_success_effects_witness :
    Event.authUpdate "TAG02" blockedConf.idTagInfo ∈
      (drainBody unknownHeadEnvW provState [SendOutcome.ok blockedConf]).2.1 ∧
    ((drainBody unknownHeadEnvW provState [SendOutcome.ok blockedConf]).2.1.countP
      (fun e => decide (e = Event.deAuthorized 2))) = 1 :=
  ⟨(C7_drain_start_success_effects unknownHeadEnvW provState startEntryW []
      blockedConf [] rfl rfl).1 (by decide),
   (C7_drain_start_success_effects unknownHeadEnvW provState startEntryW []
      blockedConf [] rfl rfl).2 (by decide) provConn (by decide) rfl rfl⟩

theorem C9_amended_unknown_action_witness :
    (drainBody unknownHeadEnvW unknownHeadState []).2.2 = [] ∧
    (drainBody unknownHeadEnvW unknownHeadState []).1.fifo =
      [⟨"Heartbeat", FifoPayload.other 0⟩] ∧
    (drainBody unknownHeadEnvW unknownHeadState []).1.retryCount = 1 ∧
    (drainBody unknownHeadEnvW unknownHeadState []).1.timerArmed = true := by
  have h := C9_amended_unknown_action unknownHeadEnvW unknownHeadState
    ⟨"Heartbeat", FifoPayload.other 0⟩ [] [] rfl (by decide) (by decide) (by decide)
  exact ⟨h.2.1, (h.2.2.2 (by decide)).1, (h.2.2.2 (by decide)).2.1,
    (h.2.2.2 (by decide)).2.2 rfl⟩

end Ocpp
